import Mathlib

/-!
Verification of the booking flow of the Stay_Savvy caravan-rental platform.

The development shallowly embeds the `BookingForm` component of
`src/caravan-rental-platform/src/pages/BookingPage.tsx`:

* the price computation performed at render time (lines 84-91);
* the three submission handlers `handleDateSubmit`, `handleBookingSubmit`
  and `handlePaymentSubmit`, together with the mutation callbacks that
  update the component state (`setBookingData`, `setPaymentIntent`,
  `setCurrentStep`);
* the UI transitions available on each step (date and occupancy inputs,
  back buttons, disabled-button guards).

JavaScript numbers are modelled as rationals, calendar dates as
millisecond timestamps (`Option ℤ`, `none` standing for the empty input
string), and each remote round trip as an event parameter carrying the
outcome the remote system returns.  Every remote call a transition issues
is recorded in the transition's output list, so that claims about "no
remote call is made" are about that list.
-/

namespace StaySavvy

/-- Per-property rate card (`PricingRule` interface, BookingPage.tsx lines
52-60).  Field names follow the source. -/
structure PricingRule where
  base_price_per_night : ℚ
  cleaning_fee : ℚ
  pet_fee : ℚ
  security_deposit : ℚ
  min_stay_nights : ℤ
  check_in_time : String
  check_out_time : String
deriving DecidableEq

/-- Milliseconds per day, the divisor `1000 * 60 * 60 * 24` from line 85. -/
def msPerDay : ℚ := 1000 * 60 * 60 * 24

/-- Executable floor of a rational (agrees with `Int.floor`). -/
def ratFloor (x : ℚ) : ℤ := x.num / x.den

/-- The function `ratFloor` is `Int.floor`. -/
theorem ratFloor_eq (x : ℚ) : ratFloor x = ⌊x⌋ := Rat.floor_def.symm

/-- The render-time `nights` (line 84-86): `Math.ceil((end - start) / msPerDay)` when both
date inputs are non-empty, and `0` otherwise (empty string is falsy).
The ceiling is expressed through integer division so that it evaluates;
`nights_eq_ceil` states it is the rational ceiling. -/
def nights (startDate endDate : Option ℤ) : ℤ :=
  match startDate, endDate with
  | some s, some e => -(-(e - s) / 86400000)
  | _, _ => 0

/-- On two given dates, `nights` is the ceiling of the day difference. -/
theorem nights_eq_ceil (s e : ℤ) :
    nights (some s) (some e) = ⌈((e : ℚ) - (s : ℚ)) / msPerDay⌉ := by
  have h1 : ((-(e - s) : ℤ) : ℚ) / ((86400000 : ℕ) : ℚ)
      = -(((e : ℚ) - (s : ℚ)) / msPerDay) := by
    simp only [msPerDay]
    push_cast
    ring
  have h2 := Rat.floor_intCast_div_natCast (-(e - s)) 86400000
  rw [h1, Int.floor_neg] at h2
  have h3 : -(e - s) / ((86400000 : ℕ) : ℤ) = -(e - s) / (86400000 : ℤ) := by
    norm_num
  rw [h3] at h2
  show -(-(e - s) / 86400000) = _
  rw [← h2, neg_neg]

/-- JavaScript `Math.round`: round half toward positive infinity. -/
def jsRound (x : ℚ) : ℤ := ratFloor (x + 1 / 2)

/-- The function `jsRound` as a floor expression. -/
theorem jsRound_eq (x : ℚ) : jsRound x = ⌊x + 1 / 2⌋ := ratFloor_eq _

/-- The itemized price computed at render time (lines 87-91). -/
structure PriceBreakdown where
  nights : ℤ
  basePrice : ℚ
  cleaningFee : ℚ
  petFee : ℚ
  serviceFee : ℚ
  totalPrice : ℚ
deriving DecidableEq

/-- The render-time pricing block (lines 84-91): `basePrice`,
`cleaningFee`, `petFee`, the 12% `serviceFee`, and `totalPrice`.
`pricing.cleaning_fee || 0` and `pricing.pet_fee || 0` are the identity on
rationals (`0 || 0 = 0`). -/
def computePricing (pricing : PricingRule) (startDate endDate : Option ℤ)
    (pets : ℕ) : PriceBreakdown :=
  let n := nights startDate endDate
  let basePrice : ℚ := pricing.base_price_per_night * (n : ℚ)
  let cleaningFee : ℚ := pricing.cleaning_fee
  let petFee : ℚ := if 0 < pets then pricing.pet_fee else 0
  let serviceFee : ℚ := (jsRound (basePrice * (12 / 100)) : ℚ)
  { nights := n
    basePrice := basePrice
    cleaningFee := cleaningFee
    petFee := petFee
    serviceFee := serviceFee
    totalPrice := basePrice + cleaningFee + petFee + serviceFee }

/-- The hard-coded fallback rate card of `BookingPage` (lines 640-648),
used when the fetched property carries no pricing rules. -/
def defaultPricing : PricingRule :=
  { base_price_per_night := 100
    cleaning_fee := 25
    pet_fee := 15
    security_deposit := 100
    min_stay_nights := 2
    check_in_time := "15:00"
    check_out_time := "11:00" }

/-- Line 640, `property.property_pricing_rules?.[0] || defaultPricing`:
the optional-chaining step yields `undefined` when the rules field is
absent or the list is empty, in which case `||` selects the fallback. -/
def selectPricing (rules : Option (List PricingRule)) : PricingRule :=
  match rules with
  | none => defaultPricing
  | some [] => defaultPricing
  | some (r :: _) => r

/-- Millisecond timestamp of 2025-06-01T00:00Z (20240 days since epoch). -/
def date20250601 : ℤ := 1748736000000

/-- Millisecond timestamp of 2025-06-04T00:00Z. -/
def date20250604 : ℤ := 1748995200000

/-- The fixed surroundings of one `BookingForm` instance: the fetched
property fields the handlers read (`berths`, `pet_friendly`), the pricing
prop, and whether a user is signed in. -/
structure PropertyCtx where
  berths : ℕ
  pet_friendly : Bool
  pricing : PricingRule
  loggedIn : Bool

/-- The `useState` hooks of `BookingForm` (lines 71-81). -/
structure FlowState where
  startDate : Option ℤ
  endDate : Option ℤ
  adults : ℕ
  children : ℕ
  infants : ℕ
  pets : ℕ
  specialRequests : String
  currentStep : ℕ
  bookingData : Option String
  paymentIntent : Option String
  isProcessing : Bool
  bookingPending : Bool
deriving DecidableEq

/-- Initial hook values (lines 71-81): dates and adults/children seeded
from the search params (defaults 2 and 0), everything else empty. -/
def initState (startP endP : Option ℤ) (adultsP childrenP : ℕ) : FlowState :=
  { startDate := startP
    endDate := endP
    adults := adultsP
    children := childrenP
    infants := 0
    pets := 0
    specialRequests := ""
    currentStep := 1
    bookingData := none
    paymentIntent := none
    isProcessing := false
    bookingPending := false }

/-- The remote mutating/reading calls the component can issue, with the
payload fields each call reads from the component state. -/
inductive RemoteCall
  | checkAvailability (startDate endDate : Option ℤ)
  | createBooking (startDate endDate : Option ℤ)
      (adults children infants pets : ℕ) (specialRequests : String)
  | createPaymentIntent (bookingId : Option String) (amount : ℚ)
  | confirmCardPayment (clientSecret : String)
  | confirmPayment (paymentId : String) (bookingId : Option String)
deriving DecidableEq

/-- The outcome Stripe's `confirmCardPayment` resolves with: either an
error object, or a payment intent carrying a status string. -/
inductive StripeResult
  | failed (msg : String)
  | completed (status : String) (paymentId : String)
deriving DecidableEq

/-- What a completed run of `handlePaymentSubmit` did that the user can
observe: the "ready to process payment" toast, an error toast, the
success toast plus step 4, or nothing at all. -/
inductive PayOutcome
  | intentReady
  | errorToast (msg : String)
  | confirmedBooking
  | silent
deriving DecidableEq

/-- Result of the three `handleDateSubmit` checks (lines 176-190),
fail-fast in source order: dates present, end after start, minimum stay. -/
inductive DateCheck
  | missingDates
  | invalidRange
  | stayTooShort
  | passed
deriving DecidableEq

/-- The validation prefix of `handleDateSubmit` (lines 177-188):
`!startDate || !endDate`, then `new Date(startDate) >= new Date(endDate)`,
then `nights < pricing.min_stay_nights`. -/
def dateSubmitValidation (pricing : PricingRule)
    (startDate endDate : Option ℤ) : DateCheck :=
  match startDate, endDate with
  | none, _ => .missingDates
  | _, none => .missingDates
  | some s, some e =>
    if e ≤ s then .invalidRange
    else if nights (some s) (some e) < pricing.min_stay_nights then
      .stayTooShort
    else .passed

/-- The body of `handlePaymentSubmit` (lines 205-257), entered with
`isProcessing` just set.  With no stored intent it runs
`createPaymentIntentMutation` and returns (line 211-214); with a stored
intent it calls `stripe.confirmCardPayment` on the held client secret and,
on status `succeeded`, the remote `confirm_payment`; any thrown error ends
in the shared `catch` with an error toast; a non-error, non-`succeeded`
Stripe outcome falls through the `if` (line 235) with no effect.  The
`finally` clause resets `isProcessing`. -/
def handlePay (pricing : PricingRule) (st : FlowState)
    (intentResult : Except String String) (stripeResult : StripeResult)
    (confirmResult : Except String Unit) :
    FlowState × PayOutcome × List RemoteCall :=
  match st.paymentIntent with
  | none =>
    match intentResult with
    | .ok secret =>
        ({ st with paymentIntent := some secret, isProcessing := false },
          .intentReady,
          [.createPaymentIntent st.bookingData
            (computePricing pricing st.startDate st.endDate st.pets).totalPrice])
    | .error msg =>
        ({ st with isProcessing := false }, .errorToast msg,
          [.createPaymentIntent st.bookingData
            (computePricing pricing st.startDate st.endDate st.pets).totalPrice])
  | some secret =>
    match stripeResult with
    | .failed msg =>
        ({ st with isProcessing := false }, .errorToast msg,
          [.confirmCardPayment secret])
    | .completed status paymentId =>
        if status = "succeeded" then
          match confirmResult with
          | .ok _ =>
              ({ st with currentStep := 4, isProcessing := false },
                .confirmedBooking,
                [.confirmCardPayment secret,
                  .confirmPayment paymentId st.bookingData])
          | .error msg =>
              ({ st with isProcessing := false }, .errorToast msg,
                [.confirmCardPayment secret,
                  .confirmPayment paymentId st.bookingData])
        else
          ({ st with isProcessing := false }, .silent,
            [.confirmCardPayment secret])

/-- The UI events one `BookingForm` instance can process.  Each remote
round trip carries, as event data, the outcome the remote side returns. -/
inductive Event
  | setStartDate (d : Option ℤ)
  | setEndDate (d : Option ℤ)
  | setAdults (n : ℕ)
  | setChildren (n : ℕ)
  | setInfants (n : ℕ)
  | setPets (n : ℕ)
  | setSpecialRequests (s : String)
  | dateSubmit (availability : Except String Bool)
  | bookingSubmit
  | bookingSettled (result : Except String String)
  | paySubmit (stripeReady : Bool) (intentResult : Except String String)
      (stripeResult : StripeResult) (confirmResult : Except String Unit)
  | backButton

/-- One UI event processed against the rendered component: input widgets
exist only on their step's screen (dates on step 1, occupancy and requests
on step 2, with the pets select disabled unless `property.pet_friendly`);
`handleDateSubmit` fires from the step-1 button (disabled without both
dates), `handleBookingSubmit` from the step-2 button (disabled while
`createBookingMutation.isPending`), `handlePaymentSubmit` from the step-3
button (disabled while `isProcessing` or Stripe is not loaded); the
create-booking mutation settles via its `onSuccess`/`onError` callbacks
(lines 142-149); the back buttons are `setCurrentStep(1)` on step 2 and
`setCurrentStep(2)` on step 3.  Returns the new state and the remote
calls issued. -/
def stepFlow (P : PropertyCtx) (st : FlowState) (ev : Event) :
    FlowState × List RemoteCall :=
  match ev with
  | .setStartDate d =>
      if st.currentStep = 1 then ({ st with startDate := d }, []) else (st, [])
  | .setEndDate d =>
      if st.currentStep = 1 then ({ st with endDate := d }, []) else (st, [])
  | .setAdults n =>
      if st.currentStep = 2 then ({ st with adults := n }, []) else (st, [])
  | .setChildren n =>
      if st.currentStep = 2 then ({ st with children := n }, []) else (st, [])
  | .setInfants n =>
      if st.currentStep = 2 then ({ st with infants := n }, []) else (st, [])
  | .setPets n =>
      if st.currentStep = 2 ∧ P.pet_friendly = true then
        ({ st with pets := n }, [])
      else (st, [])
  | .setSpecialRequests s =>
      if st.currentStep = 2 then ({ st with specialRequests := s }, [])
      else (st, [])
  | .dateSubmit availability =>
      if st.currentStep = 1 ∧ st.startDate.isSome ∧ st.endDate.isSome then
        match dateSubmitValidation P.pricing st.startDate st.endDate with
        | .passed =>
            match availability with
            | .ok true =>
                ({ st with currentStep := 2 },
                  [.checkAvailability st.startDate st.endDate])
            | .ok false => (st, [.checkAvailability st.startDate st.endDate])
            | .error _ => (st, [.checkAvailability st.startDate st.endDate])
        | _ => (st, [])
      else (st, [])
  | .bookingSubmit =>
      if st.currentStep = 2 ∧ st.bookingPending = false then
        if P.loggedIn = true then
          if P.berths < st.adults + st.children then (st, [])
          else
            ({ st with bookingPending := true },
              [.createBooking st.startDate st.endDate st.adults st.children
                st.infants st.pets st.specialRequests])
        else (st, [])
      else (st, [])
  | .bookingSettled result =>
      if st.bookingPending = true then
        match result with
        | .ok bid =>
            ({ st with
                bookingPending := false
                bookingData := some bid
                currentStep := 3 }, [])
        | .error _ => ({ st with bookingPending := false }, [])
      else (st, [])
  | .paySubmit ready intentResult stripeResult confirmResult =>
      if st.currentStep = 3 ∧ st.isProcessing = false ∧ ready = true then
        ((handlePay P.pricing st intentResult stripeResult confirmResult).1,
          (handlePay P.pricing st intentResult stripeResult
            confirmResult).2.2)
      else (st, [])
  | .backButton =>
      if st.currentStep = 2 then ({ st with currentStep := 1 }, [])
      else if st.currentStep = 3 then ({ st with currentStep := 2 }, [])
      else (st, [])

/-- States one flow instance can reach from some initial render. -/
inductive Reachable (P : PropertyCtx) : FlowState → Prop
  | start (startP endP : Option ℤ) (adultsP childrenP : ℕ) :
      Reachable P (initState startP endP adultsP childrenP)
  | step {st : FlowState} (ev : Event) (h : Reachable P st) :
      Reachable P (stepFlow P st ev).1

/-- Run a list of events, keeping only the state. -/
def runFlow (P : PropertyCtx) (st : FlowState) (evs : List Event) :
    FlowState :=
  evs.foldl (fun s ev => (stepFlow P s ev).1) st

/-- Anything `runFlow` produces from a reachable state is reachable. -/
theorem reachable_runFlow (P : PropertyCtx) {st : FlowState}
    (h : Reachable P st) (evs : List Event) :
    Reachable P (runFlow P st evs) := by
  induction evs generalizing st with
  | nil => exact h
  | cons ev evs ih => exact ih (Reachable.step ev h)

/-- C1: for valid dates the price breakdown satisfies the stated identities
(with the security deposit absent from the total), and the two concrete
stays from the spec evaluate to totals 361 and 376. -/
theorem computePricing_spec (pricing : PricingRule) (s e : ℤ) (pets : ℕ)
    (h : s < e) :
    (computePricing pricing (some s) (some e) pets).nights =
      ⌈((e : ℚ) - (s : ℚ)) / msPerDay⌉ ∧
    (computePricing pricing (some s) (some e) pets).basePrice =
      pricing.base_price_per_night *
        ((computePricing pricing (some s) (some e) pets).nights : ℚ) ∧
    (computePricing pricing (some s) (some e) pets).petFee =
      (if 0 < pets then pricing.pet_fee else 0) ∧
    (computePricing pricing (some s) (some e) pets).serviceFee =
      (jsRound ((computePricing pricing (some s) (some e) pets).basePrice
        * (12 / 100)) : ℚ) ∧
    (computePricing pricing (some s) (some e) pets).totalPrice =
      (computePricing pricing (some s) (some e) pets).basePrice
        + pricing.cleaning_fee
        + (computePricing pricing (some s) (some e) pets).petFee
        + (computePricing pricing (some s) (some e) pets).serviceFee ∧
    computePricing defaultPricing (some date20250601) (some date20250604) 0 =
      { nights := 3, basePrice := 300, cleaningFee := 25, petFee := 0,
        serviceFee := 36, totalPrice := 361 } ∧
    (computePricing defaultPricing (some date20250601) (some date20250604)
        1).totalPrice = 376 := by
  refine ⟨nights_eq_ceil s e, rfl, rfl, rfl, rfl, ?_, ?_⟩
  · simp only [computePricing, nights, jsRound_eq,
      defaultPricing, date20250601, date20250604, PriceBreakdown.mk.injEq]
    norm_num
  · simp only [computePricing, nights, jsRound_eq,
      defaultPricing, date20250601, date20250604]
    norm_num

/-- Witness for `computePricing_spec` at the spec's concrete stay. -/
theorem computePricing_spec_witness :
    date20250601 < date20250604 ∧
    (computePricing defaultPricing (some date20250601) (some date20250604)
        0).totalPrice = 361 :=
  ⟨by decide, by
    have h := computePricing_spec defaultPricing date20250601 date20250604 0
      (by decide)
    rw [h.2.2.2.2.2.1]⟩

/-- Recognizer for the `create_booking` remote call. -/
def RemoteCall.isCreateBooking : RemoteCall → Bool
  | .createBooking _ _ _ _ _ _ _ => true
  | _ => false

/-- Recognizer for the `create_payment_intent` remote call. -/
def RemoteCall.isCreateIntent : RemoteCall → Bool
  | .createPaymentIntent _ _ => true
  | _ => false

/-- Recognizer for Stripe's `confirmCardPayment` (the charge attempt). -/
def RemoteCall.isCardCharge : RemoteCall → Bool
  | .confirmCardPayment _ => true
  | _ => false

/-- The booking id a payment-related call is addressed to, when any. -/
def RemoteCall.paymentBooking : RemoteCall → Option (Option String)
  | .createPaymentIntent b _ => some b
  | .confirmPayment _ b => some b
  | _ => none

/-- With a stored intent, `handlePay` keeps the intent, never calls
`create_payment_intent`, and reaches the card only through the stored
client secret. -/
theorem handlePay_held_intent (pricing : PricingRule) (st : FlowState)
    (secret : String) (h : st.paymentIntent = some secret)
    (iR : Except String String) (sR : StripeResult)
    (cR : Except String Unit) :
    (handlePay pricing st iR sR cR).1.paymentIntent = some secret ∧
    ∀ c ∈ (handlePay pricing st iR sR cR).2.2,
      RemoteCall.isCreateIntent c = false ∧
      (RemoteCall.isCardCharge c = true →
        c = RemoteCall.confirmCardPayment secret) := by
  cases sR with
  | failed msg =>
      simp [handlePay, h, RemoteCall.isCreateIntent, RemoteCall.isCardCharge]
  | completed status paymentId =>
      by_cases hs : status = "succeeded"
      · cases cR <;>
          simp [handlePay, h, hs, RemoteCall.isCreateIntent,
            RemoteCall.isCardCharge]
      · simp [handlePay, h, hs, RemoteCall.isCreateIntent,
          RemoteCall.isCardCharge]

/-- The handler body `handlePay` issues no `create_booking` call, and every payment call it
issues is addressed to the component's current `bookingData`. -/
theorem handlePay_calls_payment (pricing : PricingRule) (st : FlowState)
    (iR : Except String String) (sR : StripeResult)
    (cR : Except String Unit) :
    ∀ c ∈ (handlePay pricing st iR sR cR).2.2,
      RemoteCall.isCreateBooking c = false ∧
      ∀ b, RemoteCall.paymentBooking c = some b → b = st.bookingData := by
  rcases hpi : st.paymentIntent with _ | secret
  · cases iR <;>
      simp [handlePay, hpi, RemoteCall.isCreateBooking,
        RemoteCall.paymentBooking]
  · cases sR with
    | failed msg =>
        simp [handlePay, hpi, RemoteCall.isCreateBooking,
          RemoteCall.paymentBooking]
    | completed status paymentId =>
        by_cases hs : status = "succeeded"
        · cases cR <;>
            simp [handlePay, hpi, hs, RemoteCall.isCreateBooking,
              RemoteCall.paymentBooking]
        · simp [handlePay, hpi, hs, RemoteCall.isCreateBooking,
            RemoteCall.paymentBooking]

/-- C5: once a payment intent is held, every event leaves it in place, no
event issues a second `create_payment_intent`, and any card charge uses
exactly the held intent's client secret. -/
theorem paymentIntent_single (P : PropertyCtx) (st : FlowState)
    (secret : String) (h : st.paymentIntent = some secret) (ev : Event) :
    (stepFlow P st ev).1.paymentIntent = some secret ∧
    ∀ c ∈ (stepFlow P st ev).2,
      RemoteCall.isCreateIntent c = false ∧
      (RemoteCall.isCardCharge c = true →
        c = RemoteCall.confirmCardPayment secret) := by
  cases ev
  case paySubmit ready iR sR cR =>
    simp only [stepFlow]
    split
    · exact handlePay_held_intent P.pricing st secret h iR sR cR
    · exact ⟨h, by simp⟩
  all_goals (
    simp only [stepFlow]
    repeat' split
    all_goals
      simp_all [RemoteCall.isCreateIntent, RemoteCall.isCardCharge])

/-- Witness for `paymentIntent_single`: a concrete flow state holding an
intent, hit with a retried payment submission after a card decline. -/
theorem paymentIntent_single_witness :
    ({ initState (some 0) (some 172800000) 2 0 with
        currentStep := 3, bookingData := some "bk1",
        paymentIntent := some "sec1" } : FlowState).paymentIntent
      = some "sec1" ∧
    (stepFlow ⟨4, true, defaultPricing, true⟩
        { initState (some 0) (some 172800000) 2 0 with
            currentStep := 3, bookingData := some "bk1",
            paymentIntent := some "sec1" }
        (.paySubmit true (.ok "other") (.failed "declined")
          (.ok ()))).1.paymentIntent = some "sec1" :=
  ⟨rfl,
    (paymentIntent_single ⟨4, true, defaultPricing, true⟩
      { initState (some 0) (some 172800000) 2 0 with
          currentStep := 3, bookingData := some "bk1",
          paymentIntent := some "sec1" }
      "sec1" rfl
      (.paySubmit true (.ok "other") (.failed "declined") (.ok ()))).1⟩

/-- C6: while a create-booking request is in flight
(`createBookingMutation.isPending`), the submit button is disabled, so a
second submission changes nothing and issues no call; moreover no event
processed during the in-flight period issues another `create_booking`. -/
theorem createBooking_singleFlight (P : PropertyCtx) (st : FlowState)
    (h : st.bookingPending = true) :
    stepFlow P st .bookingSubmit = (st, []) ∧
    ∀ ev : Event, ∀ c ∈ (stepFlow P st ev).2,
      RemoteCall.isCreateBooking c = false := by
  constructor
  · simp [stepFlow, h]
  · intro ev
    cases ev
    case paySubmit ready iR sR cR =>
      simp only [stepFlow]
      split
      · intro c hc
        exact (handlePay_calls_payment P.pricing st iR sR cR c hc).1
      · simp
    all_goals (
      simp only [stepFlow]
      repeat' split
      all_goals simp_all [RemoteCall.isCreateBooking])

/-- Witness for `createBooking_singleFlight`: a resubmission while the
first create-booking call is pending is a no-op. -/
theorem createBooking_singleFlight_witness :
    ({ initState (some 0) (some 172800000) 2 0 with
        currentStep := 2, bookingPending := true } : FlowState).bookingPending
      = true ∧
    stepFlow ⟨4, true, defaultPricing, true⟩
        { initState (some 0) (some 172800000) 2 0 with
            currentStep := 2, bookingPending := true } .bookingSubmit
      = ({ initState (some 0) (some 172800000) 2 0 with
            currentStep := 2, bookingPending := true }, []) :=
  ⟨rfl,
    (createBooking_singleFlight ⟨4, true, defaultPricing, true⟩
      { initState (some 0) (some 172800000) 2 0 with
          currentStep := 2, bookingPending := true } rfl).1⟩

/-- C8: the back buttons only move the step (3 to 2, 2 to 1); dates,
occupancy (adults, children, infants, pets) and special requests are left
untouched by a backward transition. -/
theorem backButton_frame (P : PropertyCtx) (st : FlowState) :
    (st.currentStep = 3 →
      stepFlow P st .backButton = ({ st with currentStep := 2 }, [])) ∧
    (st.currentStep = 2 →
      stepFlow P st .backButton = ({ st with currentStep := 1 }, [])) ∧
    (stepFlow P st .backButton).1.startDate = st.startDate ∧
    (stepFlow P st .backButton).1.endDate = st.endDate ∧
    (stepFlow P st .backButton).1.adults = st.adults ∧
    (stepFlow P st .backButton).1.children = st.children ∧
    (stepFlow P st .backButton).1.infants = st.infants ∧
    (stepFlow P st .backButton).1.pets = st.pets ∧
    (stepFlow P st .backButton).1.specialRequests = st.specialRequests := by
  refine ⟨fun h3 => ?_, fun h2 => ?_, ?_, ?_, ?_, ?_, ?_, ?_, ?_⟩
  · simp [stepFlow, h3]
  · simp [stepFlow, h2]
  all_goals (
    simp only [stepFlow]
    repeat' split
    all_goals simp)

/-- Witness for `backButton_frame`: going back from the payment step keeps
the entered occupancy and requests. -/
theorem backButton_frame_witness :
    ({ initState (some 0) (some 172800000) 2 1 with
        currentStep := 3, bookingData := some "bk1",
        specialRequests := "cot please" } : FlowState).currentStep = 3 ∧
    stepFlow ⟨4, true, defaultPricing, true⟩
        { initState (some 0) (some 172800000) 2 1 with
            currentStep := 3, bookingData := some "bk1",
            specialRequests := "cot please" } .backButton
      = ({ initState (some 0) (some 172800000) 2 1 with
            currentStep := 2, bookingData := some "bk1",
            specialRequests := "cot please" }, []) :=
  ⟨rfl,
    (backButton_frame ⟨4, true, defaultPricing, true⟩
      { initState (some 0) (some 172800000) 2 1 with
          currentStep := 3, bookingData := some "bk1",
          specialRequests := "cot please" }).1 rfl⟩

/-- C10: a payment submission with no stored intent only runs
`createPaymentIntentMutation` and returns: the intent is stored, the step
does not change, the only call issued is `create_payment_intent`, and no
invocation from an intent-less state ever reaches the card. -/
theorem paySubmit_createsIntentOnly (P : PropertyCtx) (st : FlowState)
    (secret : String) (h3 : st.currentStep = 3)
    (hp : st.isProcessing = false) (hi : st.paymentIntent = none)
    (sR : StripeResult) (cR : Except String Unit) :
    (stepFlow P st (.paySubmit true (.ok secret) sR cR)).1
      = { st with paymentIntent := some secret, isProcessing := false } ∧
    (stepFlow P st (.paySubmit true (.ok secret) sR cR)).1.currentStep
      = st.currentStep ∧
    (∀ c ∈ (stepFlow P st (.paySubmit true (.ok secret) sR cR)).2,
      RemoteCall.isCreateIntent c = true) ∧
    ∀ (ready : Bool) (iR : Except String String) (sR2 : StripeResult)
      (cR2 : Except String Unit),
      ∀ c ∈ (stepFlow P st (.paySubmit ready iR sR2 cR2)).2,
        RemoteCall.isCardCharge c = false := by
  refine ⟨?_, ?_, ?_, ?_⟩
  · simp [stepFlow, h3, hp, handlePay, hi]
  · simp [stepFlow, h3, hp, handlePay, hi]
  · simp [stepFlow, h3, hp, handlePay, hi, RemoteCall.isCreateIntent]
  · intro ready iR sR2 cR2
    simp only [stepFlow]
    split
    · cases iR <;> simp [handlePay, hi, RemoteCall.isCardCharge]
    · simp

/-- Witness for `paySubmit_createsIntentOnly`: first payment submission on
a fresh payment step stores the intent and stays on step 3. -/
theorem paySubmit_createsIntentOnly_witness :
    (stepFlow ⟨4, true, defaultPricing, true⟩
        { initState (some 0) (some 172800000) 2 0 with
            currentStep := 3, bookingData := some "bk1" }
        (.paySubmit true (.ok "sec1") (.failed "unused") (.ok ()))).1
      = { initState (some 0) (some 172800000) 2 0 with
            currentStep := 3, bookingData := some "bk1",
            paymentIntent := some "sec1", isProcessing := false } :=
  (paySubmit_createsIntentOnly ⟨4, true, defaultPricing, true⟩
    { initState (some 0) (some 172800000) 2 0 with
        currentStep := 3, bookingData := some "bk1" }
    "sec1" rfl rfl rfl (.failed "unused") (.ok ())).1

/-- The handler body `handlePay` never touches the stored booking record or the occupancy. -/
theorem handlePay_frame (pricing : PricingRule) (st : FlowState)
    (iR : Except String String) (sR : StripeResult)
    (cR : Except String Unit) :
    (handlePay pricing st iR sR cR).1.bookingData = st.bookingData ∧
    (handlePay pricing st iR sR cR).1.pets = st.pets := by
  rcases hpi : st.paymentIntent with _ | secret
  · cases iR <;> simp [handlePay, hpi]
  · cases sR with
    | failed msg => simp [handlePay, hpi]
    | completed status paymentId =>
        by_cases hs : status = "succeeded"
        · cases cR <;> simp [handlePay, hpi, hs]
        · simp [handlePay, hpi, hs]

/-- Each transition preserves: at the payment step or beyond, a booking
record is held. -/
theorem step_preserves_bookingData (P : PropertyCtx) (st : FlowState)
    (ev : Event) (h : 3 ≤ st.currentStep → st.bookingData ≠ none) :
    3 ≤ (stepFlow P st ev).1.currentStep →
      (stepFlow P st ev).1.bookingData ≠ none := by
  cases ev
  case paySubmit ready iR sR cR =>
    simp only [stepFlow]
    split
    · next hg =>
        intro _
        rw [(handlePay_frame P.pricing st iR sR cR).1]
        exact h (le_of_eq hg.1.symm)
    · exact h
  all_goals (
    simp only [stepFlow]
    repeat' split
    all_goals simpa using h)

/-- C4: in every reachable state, being at the payment step or beyond
implies a booking record from a successful create-booking call is held,
and every payment-intent creation, card confirmation and payment
confirmation is issued with that existing booking. -/
theorem booking_before_payment (P : PropertyCtx) (st : FlowState)
    (h : Reachable P st) :
    (3 ≤ st.currentStep → st.bookingData ≠ none) ∧
    (∀ ev : Event, ∀ c ∈ (stepFlow P st ev).2,
      ∀ b, RemoteCall.paymentBooking c = some b → b ≠ none) ∧
    (∀ ev : Event, ∀ c ∈ (stepFlow P st ev).2,
      RemoteCall.isCardCharge c = true → st.bookingData ≠ none) := by
  have hinv : 3 ≤ st.currentStep → st.bookingData ≠ none := by
    induction h with
    | start s e a c => simp [initState]
    | step ev hr ih => exact step_preserves_bookingData _ _ ev ih
  refine ⟨hinv, ?_, ?_⟩
  · intro ev
    cases ev
    case paySubmit ready iR sR cR =>
      simp only [stepFlow]
      split
      · next hg =>
          intro c hc b hb
          rw [(handlePay_calls_payment P.pricing st iR sR cR c hc).2 b hb]
          exact hinv (le_of_eq hg.1.symm)
      · simp
    all_goals (
      simp only [stepFlow]
      repeat' split
      all_goals simp [RemoteCall.paymentBooking])
  · intro ev
    cases ev
    case paySubmit ready iR sR cR =>
      simp only [stepFlow]
      split
      · next hg =>
          intro c hc hcharge
          exact hinv (le_of_eq hg.1.symm)
      · simp
    all_goals (
      simp only [stepFlow]
      repeat' split
      all_goals simp [RemoteCall.isCardCharge])

/-- The surroundings used by the concrete runs: four berths, pet
friendly, the fallback rate card, a signed-in user. -/
def demoCtx : PropertyCtx := ⟨4, true, defaultPricing, true⟩

/-- A fresh form with two valid nights preselected and two adults. -/
def demoStart : FlowState := initState (some 0) (some 172800000) 2 0

/-- Events reaching the payment step: availability passes, the booking is
submitted and the create-booking call succeeds with id `bk1`. -/
def demoToPaying : List Event :=
  [.dateSubmit (.ok true), .bookingSubmit, .bookingSettled (.ok "bk1")]

/-- Witness for `booking_before_payment`: after the demo run reaching the
payment step, the booking record is held. -/
theorem booking_before_payment_witness :
    (runFlow demoCtx demoStart demoToPaying).bookingData ≠ none :=
  (booking_before_payment demoCtx (runFlow demoCtx demoStart demoToPaying)
    (reachable_runFlow demoCtx
      (Reachable.start (some 0) (some 172800000) 2 0) demoToPaying)).1
    (by decide)

/-- C2 counterexample: a reachable state whose occupancy violates rule (4)
(`adults + children ≤ berths`: 8 > 2) on which the date submission still
issues the remote availability call, contradicting "no remote call is made
when any of the five rules is violated". -/
theorem validationOrder_cex :
    Reachable ⟨2, false, defaultPricing, true⟩
      (initState (some 0) (some 172800000) 8 0) ∧
    (⟨2, false, defaultPricing, true⟩ : PropertyCtx).berths
      < (initState (some 0) (some 172800000) 8 0).adults
        + (initState (some 0) (some 172800000) 8 0).children ∧
    (stepFlow ⟨2, false, defaultPricing, true⟩
        (initState (some 0) (some 172800000) 8 0)
        (.dateSubmit (.ok true))).2
      = [RemoteCall.checkAvailability (some 0) (some 172800000)] :=
  ⟨Reachable.start (some 0) (some 172800000) 8 0, by decide, by decide⟩

/-- A transition never raises the pet count of a non-pet-friendly
property's flow above zero: the pets select is disabled. -/
theorem step_preserves_pets (P : PropertyCtx) (st : FlowState) (ev : Event)
    (hpf : P.pet_friendly = false) (h : st.pets = 0) :
    (stepFlow P st ev).1.pets = 0 := by
  cases ev
  case setPets n =>
    simp only [stepFlow]
    split
    · next hg => rw [hpf] at hg; exact absurd hg.2 (by simp)
    · exact h
  case paySubmit ready iR sR cR =>
    simp only [stepFlow]
    split
    · rw [(handlePay_frame P.pricing st iR sR cR).2]; exact h
    · exact h
  all_goals (
    simp only [stepFlow]
    repeat' split
    all_goals simpa using h)

/-- C2 amended: validation is split across the two steps.  The date step
checks, fail fast in source order, (1) both dates present, (2) end after
start, (3) `nights ≥ minStayNights`, and blocks the availability call when
one fails (so `nights < minStayNights` yields the stay-too-short outcome
and no remote call); any occupancy violation does not block that call.
The details step checks (4) `adults + children ≤ berths` and blocks the
create-booking call on violation, but once (4) passes it issues the call
whatever the pets count, so rule (5) is not a submission check; it is
enforced only in that the disabled pets input keeps `pets = 0` on
non-pet-friendly properties. -/
theorem validation_amended (P : PropertyCtx) (st : FlowState) :
    (∀ e, dateSubmitValidation P.pricing none e = .missingDates) ∧
    (∀ s, dateSubmitValidation P.pricing s none = .missingDates) ∧
    (∀ s e : ℤ, e ≤ s →
      dateSubmitValidation P.pricing (some s) (some e) = .invalidRange) ∧
    (∀ s e : ℤ, s < e →
      nights (some s) (some e) < P.pricing.min_stay_nights →
      dateSubmitValidation P.pricing (some s) (some e) = .stayTooShort) ∧
    (∀ av, dateSubmitValidation P.pricing st.startDate st.endDate ≠ .passed →
      stepFlow P st (.dateSubmit av) = (st, [])) ∧
    (P.berths < st.adults + st.children →
      stepFlow P st .bookingSubmit = (st, [])) ∧
    (st.currentStep = 2 → st.bookingPending = false → P.loggedIn = true →
      st.adults + st.children ≤ P.berths →
      (stepFlow P st .bookingSubmit).2
        = [RemoteCall.createBooking st.startDate st.endDate st.adults
            st.children st.infants st.pets st.specialRequests]) ∧
    (Reachable P st → P.pet_friendly = false → st.pets = 0) := by
  refine ⟨fun e => ?_, fun s => ?_, fun s e hle => ?_, fun s e hlt hn => ?_,
    fun av hne => ?_, fun hover => ?_, fun h2 hbp hlog hle => ?_,
    fun hr hpf => ?_⟩
  · cases e <;> rfl
  · cases s <;> rfl
  · simp only [dateSubmitValidation]
    rw [if_pos hle]
  · simp only [dateSubmitValidation]
    rw [if_neg (not_le.mpr hlt), if_pos hn]
  · simp only [stepFlow]
    rcases hval : dateSubmitValidation P.pricing st.startDate st.endDate
      with _ | _ | _ | _
    · split <;> rfl
    · split <;> rfl
    · split <;> rfl
    · exact absurd hval hne
  · simp [stepFlow, hover]
  · simp [stepFlow, h2, hbp, hlog, not_lt.mpr hle]
  · induction hr with
    | start s e a c => simp [initState]
    | step ev hr ih => exact step_preserves_pets _ _ ev hpf ih

/-- Witness for `validation_amended`: one night against a two-night
minimum is rejected as a too-short stay. -/
theorem validation_amended_witness :
    dateSubmitValidation defaultPricing (some 0) (some 86400000)
      = .stayTooShort :=
  (validation_amended demoCtx demoStart).2.2.2.1 0 86400000
    (by decide) (by decide)

/-- A concrete payment-step state holding booking `bk1` and a stored
payment intent with client secret `sec1`. -/
def payingIntentState : FlowState :=
  { demoStart with
    currentStep := 3
    bookingData := some "bk1"
    paymentIntent := some "sec1" }

/-- C3 counterexample: when the provider reports success but the remote
confirm-payment call fails, the handler ends in exactly the same state and
with exactly the same observable outcome as a card decline carrying the
same message — step 3 with processing reset, i.e. the pay button
re-enabled — not in a distinguishable `Failed`-with-mismatch state. -/
theorem confirmMismatch_cex :
    (handlePay defaultPricing payingIntentState (.ok "unused")
        (.completed "succeeded" "pay1") (.error "confirm failed")).1
      = (handlePay defaultPricing payingIntentState (.ok "unused")
          (.failed "confirm failed") (.ok ())).1 ∧
    (handlePay defaultPricing payingIntentState (.ok "unused")
        (.completed "succeeded" "pay1") (.error "confirm failed")).2.1
      = (handlePay defaultPricing payingIntentState (.ok "unused")
          (.failed "confirm failed") (.ok ())).2.1 ∧
    (handlePay defaultPricing payingIntentState (.ok "unused")
        (.completed "succeeded" "pay1")
        (.error "confirm failed")).1.currentStep = 3 ∧
    (handlePay defaultPricing payingIntentState (.ok "unused")
        (.completed "succeeded" "pay1")
        (.error "confirm failed")).1.isProcessing = false := by
  refine ⟨?_, ?_, ?_, ?_⟩ <;> decide

/-- C3 amended: after provider success with remote confirmation failure
the handler surfaces the backend message through the generic error toast
and leaves the flow on the payment step with processing reset (the pay
control re-enabled); the resulting state and outcome coincide with those
of a card decline with the same message, so no distinct mismatch error or
terminal `Failed` state exists. -/
theorem confirmMismatch_amended (pricing : PricingRule) (st : FlowState)
    (secret : String) (h : st.paymentIntent = some secret) (m : String)
    (iR : Except String String) (paymentId : String)
    (cR2 : Except String Unit) :
    handlePay pricing st iR (.completed "succeeded" paymentId) (.error m)
      = ({ st with isProcessing := false }, .errorToast m,
          [.confirmCardPayment secret,
            .confirmPayment paymentId st.bookingData]) ∧
    (handlePay pricing st iR (.completed "succeeded" paymentId)
        (.error m)).1
      = (handlePay pricing st iR (.failed m) cR2).1 ∧
    (handlePay pricing st iR (.completed "succeeded" paymentId)
        (.error m)).2.1
      = (handlePay pricing st iR (.failed m) cR2).2.1 := by
  refine ⟨?_, ?_, ?_⟩ <;> simp [handlePay, h]

/-- Witness for `confirmMismatch_amended` at the concrete payment state. -/
theorem confirmMismatch_amended_witness :
    handlePay defaultPricing payingIntentState (.ok "unused")
        (.completed "succeeded" "pay1") (.error "boom")
      = ({ payingIntentState with isProcessing := false },
          .errorToast "boom",
          [.confirmCardPayment "sec1",
            .confirmPayment "pay1" payingIntentState.bookingData]) :=
  (confirmMismatch_amended defaultPricing payingIntentState "sec1" rfl
    "boom" (.ok "unused") "pay1" (.ok ())).1

/-- C7 counterexample: a card-confirmation round trip resolving without an
error but with a non-`succeeded` status (here `processing`) completes
silently — no step change, no toast of any kind — so not every completion
advances the flow or surfaces a message. -/
theorem payOutcome_cex :
    (handlePay defaultPricing payingIntentState (.ok "unused")
        (.completed "processing" "pay1") (.ok ())).2.1
      = PayOutcome.silent ∧
    (handlePay defaultPricing payingIntentState (.ok "unused")
        (.completed "processing" "pay1") (.ok ())).1.currentStep = 3 ∧
    (stepFlow demoCtx payingIntentState
        (.paySubmit true (.ok "unused") (.completed "processing" "pay1")
          (.ok ()))).1
      = payingIntentState := by
  refine ⟨?_, ?_, ?_⟩ <;> decide

/-- C7 amended: every completion of the payment handler resets
`isProcessing` and either advances to step 4 with the success outcome,
surfaces an error toast, surfaces the intent-ready toast, or — when the
provider returns neither an error nor a `succeeded` status — completes
silently; in the last three cases the step is unchanged, so every path
lands in a well-defined step of the machine. -/
theorem payOutcome_amended (pricing : PricingRule) (st : FlowState)
    (iR : Except String String) (sR : StripeResult)
    (cR : Except String Unit) :
    (handlePay pricing st iR sR cR).1.isProcessing = false ∧
    (((handlePay pricing st iR sR cR).2.1 = PayOutcome.confirmedBooking ∧
        (handlePay pricing st iR sR cR).1.currentStep = 4) ∨
      ((∃ m, (handlePay pricing st iR sR cR).2.1 = PayOutcome.errorToast m) ∧
        (handlePay pricing st iR sR cR).1.currentStep = st.currentStep) ∨
      ((handlePay pricing st iR sR cR).2.1 = PayOutcome.intentReady ∧
        (handlePay pricing st iR sR cR).1.currentStep = st.currentStep) ∨
      ((handlePay pricing st iR sR cR).2.1 = PayOutcome.silent ∧
        (handlePay pricing st iR sR cR).1.currentStep = st.currentStep)) := by
  rcases hpi : st.paymentIntent with _ | secret
  · cases iR <;> simp [handlePay, hpi]
  · cases sR with
    | failed msg => simp [handlePay, hpi]
    | completed status paymentId =>
        by_cases hs : status = "succeeded"
        · cases cR <;> simp [handlePay, hpi, hs]
        · simp [handlePay, hpi, hs]

/-- Events carrying a run through intent creation and a successful charge,
after `demoToPaying`. -/
def demoToConfirmed : List Event :=
  demoToPaying ++
    [.paySubmit true (.ok "sec1") (.failed "unused") (.ok ()),
      .paySubmit true (.ok "unused") (.completed "succeeded" "pay1")
        (.ok ())]

/-- C9: a property fetched without pricing rules gets the hard-coded
fallback rate card (100 / 25 / 15 / 100 / 2 nights / 15:00 / 11:00), and
with that rate card a booking and payment can be carried to the confirmed
step. -/
theorem defaultPricing_fallback :
    selectPricing none = defaultPricing ∧
    selectPricing (some []) = defaultPricing ∧
    defaultPricing.base_price_per_night = 100 ∧
    defaultPricing.cleaning_fee = 25 ∧
    defaultPricing.pet_fee = 15 ∧
    defaultPricing.security_deposit = 100 ∧
    defaultPricing.min_stay_nights = 2 ∧
    defaultPricing.check_in_time = "15:00" ∧
    defaultPricing.check_out_time = "11:00" ∧
    ∃ st : FlowState, Reachable demoCtx st ∧ st.currentStep = 4 ∧
      st.bookingData ≠ none := by
  refine ⟨rfl, rfl, rfl, rfl, rfl, rfl, rfl, rfl, rfl,
    runFlow demoCtx demoStart demoToConfirmed, ?_, ?_, ?_⟩
  · exact reachable_runFlow demoCtx
      (Reachable.start (some 0) (some 172800000) 2 0) demoToConfirmed
  · decide
  · decide

end StaySavvy
